import Mathlib

/-!
# GoImageService (src/node-client.js)

A shallow embedding of the `GoImageService` class: the constructor and its five
asynchronous operations.  JavaScript values are a small value type, the awaited
axios call is an oracle from the issued request to its settled outcome, and every
operation is a state-and-exception passing program that records the requests it
issues and the `console.error` calls it makes.
-/

namespace NodeClient

/-! ## JavaScript values -/

/-- One byte of a binary body. -/
abbrev Byte := Fin 256

/-- JavaScript values as far as the client handles them: the two absence values,
primitives, binary buffers, arrays and plain objects (ordered key/value lists).
Numbers are the integers; the client never computes with them. -/
inductive JsVal where
  | undefined : JsVal
  | null : JsVal
  | bool (b : Bool) : JsVal
  | num (n : Int) : JsVal
  | str (s : String) : JsVal
  | bytes (p : List Byte) : JsVal
  | arr (xs : List JsVal) : JsVal
  | obj (fields : List (String × JsVal)) : JsVal

instance : Inhabited JsVal := ⟨JsVal.undefined⟩

/-- JavaScript truthiness (ToBoolean): `undefined`, `null`, `false`, `0` and the
empty string are falsy, every other value is truthy. -/
def JsVal.truthy : JsVal → Bool
  | .undefined => false
  | .null => false
  | .bool b => b
  | .num n => n != 0
  | .str s => s != ""
  | .bytes _ => true
  | .arr _ => true
  | .obj _ => true

/-- The `a || b` operator: `a` when it is truthy, otherwise `b`. -/
def jsOr (a b : JsVal) : JsVal :=
  if a.truthy then a else b

/-- A default parameter `(x = d)`: the default replaces exactly `undefined`. -/
def defaultParam (x d : JsVal) : JsVal :=
  match x with
  | .undefined => d
  | v => v

/-- An optional string as a JavaScript value: absent is `undefined`. -/
def ofOptString : Option String → JsVal
  | none => .undefined
  | some s => .str s

/-! ## Faults, requests and responses -/

/-- An error object as axios (or a Node built-in) raises it: its `name`, its
`message`, and the optional `code` and HTTP `status` that tell one fault from
another. -/
structure Fault where
  name : String
  message : String
  code : Option String
  status : Option Nat
deriving DecidableEq

/-- HTTP methods the client uses. -/
inductive Method where
  | GET
  | POST
deriving DecidableEq

/-- The per-call configuration object handed to `client.get` / `client.post`. -/
structure RequestConfig where
  params : List (String × JsVal) := []
  responseType : Option String := none

/-- The configuration object handed to `axios.create`; `none` as a body limit
stands for `Infinity`. -/
structure CreateConfig where
  baseURL : JsVal
  timeout : Nat
  maxBodyLength : Option Nat
  maxContentLength : Option Nat

/-- An axios instance: the defaults it was created with. -/
structure AxiosInstance where
  defaults : CreateConfig

/-- An outbound request as the client constructs it: the instance defaults merged
with the method, the path and the per-call configuration. -/
structure Request where
  method : Method
  baseURL : JsVal
  url : String
  params : List (String × JsVal)
  data : Option JsVal
  responseType : Option String
  timeout : Nat
  maxBodyLength : Option Nat
  maxContentLength : Option Nat

/-- A resolved axios response: the decoded body and the status. -/
structure Response where
  data : JsVal
  status : Nat

/-! ## The effect model -/

/-- What surrounds the client: the process environment, the settled outcome of
each awaited axios call (resolved with a response or rejected with a fault), and
what `Buffer.from` does with a value that is not already binary. -/
structure Env where
  processEnv : String → Option String
  transport : Request → Except Fault Response
  bufferFromOther : JsVal → Except Fault (List Byte)

/-- What the client has done so far: the requests issued and the argument lists
of the `console.error` calls made, oldest first. -/
structure Trace where
  requests : List Request
  diagnostics : List (List JsVal)

/-- The empty trace. -/
def Trace.empty : Trace := ⟨[], []⟩

/-- A computation of the client: it reads the surroundings, extends the trace, and
either returns a value or raises a fault. -/
def Eff (α : Type) : Type := Env → Trace → Except Fault α × Trace

/-- Return a value. -/
def Eff.pure {α : Type} (a : α) : Eff α := fun _ t => (.ok a, t)

/-- Sequencing: a raised fault skips the rest. -/
def Eff.bind {α β : Type} (m : Eff α) (f : α → Eff β) : Eff β := fun w t =>
  match m w t with
  | (.ok a, t1) => f a w t1
  | (.error e, t1) => (.error e, t1)

/-- The `throw` statement. -/
def Eff.throw {α : Type} (e : Fault) : Eff α := fun _ t => (.error e, t)

/-- The `try { body } catch (error) { handler }` statement. -/
def Eff.tryCatch {α : Type} (body : Eff α) (handler : Fault → Eff α) : Eff α := fun w t =>
  match body w t with
  | (.ok a, t1) => (.ok a, t1)
  | (.error e, t1) => handler e w t1

instance : Monad Eff where
  pure := Eff.pure
  bind := Eff.bind

instance : MonadExcept Fault Eff where
  throw := Eff.throw
  tryCatch := Eff.tryCatch

/-- Reading `process.env[name]`. -/
def processEnv (name : String) : Eff JsVal := fun w t =>
  (.ok (ofOptString (w.processEnv name)), t)

/-- The call `axios.create(config)`: builds an instance, issues nothing. -/
def axios.create (config : CreateConfig) : AxiosInstance := ⟨config⟩

/-- Issuing one request on the instance and awaiting it: the request is recorded
and the awaited promise settles as the transport decides. -/
def AxiosInstance.request (_self : AxiosInstance) (req : Request) : Eff Response := fun w t =>
  (w.transport req, { t with requests := t.requests ++ [req] })

/-- The call `client.get(url, config)`. -/
def AxiosInstance.get (self : AxiosInstance) (url : String) (config : RequestConfig) :
    Eff Response :=
  self.request
    { method := .GET, baseURL := self.defaults.baseURL, url := url,
      params := config.params, data := none, responseType := config.responseType,
      timeout := self.defaults.timeout, maxBodyLength := self.defaults.maxBodyLength,
      maxContentLength := self.defaults.maxContentLength }

/-- The call `client.post(url, data, config)`. -/
def AxiosInstance.post (self : AxiosInstance) (url : String) (data : JsVal)
    (config : RequestConfig) : Eff Response :=
  self.request
    { method := .POST, baseURL := self.defaults.baseURL, url := url,
      params := config.params, data := some data, responseType := config.responseType,
      timeout := self.defaults.timeout, maxBodyLength := self.defaults.maxBodyLength,
      maxContentLength := self.defaults.maxContentLength }

/-- The call `console.error(...args)`: one diagnostic holding the arguments. -/
def console.error (args : List JsVal) : Eff Unit := fun _ t =>
  (.ok (), { t with diagnostics := t.diagnostics ++ [args] })

/-- The bytes `Buffer.from(value)` produces: a binary value is copied byte for
byte; what happens to any other value (encoding a string, rejecting a number
with a TypeError, ...) is left to the surroundings. -/
def Env.bufferFrom (w : Env) : JsVal → Except Fault (List Byte)
  | .bytes p => .ok p
  | v => w.bufferFromOther v

/-- The call `Buffer.from(value)`: a new buffer holding the converted bytes, or
the fault the conversion raises. -/
def Buffer.from (value : JsVal) : Eff JsVal := fun w t =>
  match w.bufferFrom value with
  | .ok q => (.ok (.bytes q), t)
  | .error e => (.error e, t)

/-! ## The class -/

/-- The fields of a `GoImageService` object. -/
structure GoImageService where
  baseUrl : JsVal
  client : AxiosInstance

/-- The constructor (lines 4-12). -/
def GoImageService.constructor (serviceUrl : JsVal) : Eff GoImageService := do
  let envUrl ← processEnv "GO_IMAGE_SERVICE_URL"
  let baseUrl := jsOr (jsOr serviceUrl envUrl) (.str "http://localhost:8080")
  let client := axios.create
    { baseURL := baseUrl, timeout := 60000, maxBodyLength := none, maxContentLength := none }
  pure { baseUrl := baseUrl, client := client }

/-- The method `healthCheck()` (lines 14-21). -/
def GoImageService.healthCheck (self : GoImageService) : Eff JsVal := do
  try
    let res ← self.client.get "/health" {}
    return res.data
  catch _error =>
    return .null

/-- The method `generateCombatImage(data)` (lines 28-38). -/
def GoImageService.generateCombatImage (self : GoImageService) (data : JsVal) : Eff JsVal := do
  try
    let response ← self.client.post "/api/combat" data { responseType := some "arraybuffer" }
    let buf ← Buffer.from response.data
    return buf
  catch error =>
    console.error [.str "GoService Combat Error:", .str error.message]
    throw error

/-- The method `searchPinterest(query, maxResults = 10)` (lines 45-55). -/
def GoImageService.searchPinterest (self : GoImageService) (query : JsVal)
    (maxResultsArg : JsVal) : Eff JsVal := do
  let maxResults := defaultParam maxResultsArg (.num 10)
  try
    let response ← self.client.get "/api/scrape/pinterest"
      { params := [("query", query), ("maxResults", maxResults)] }
    return response.data
  catch error =>
    console.error [.str "GoService Pinterest Error:", .str error.message]
    return .obj [("images", .arr [])]

/-- The method `searchVSBattles(characterName)` (lines 61-71). -/
def GoImageService.searchVSBattles (self : GoImageService) (characterName : JsVal) :
    Eff JsVal := do
  try
    let response ← self.client.get "/api/scrape/vsbattles/search"
      { params := [("query", characterName)] }
    return response.data
  catch error =>
    console.error [.str "GoService VSB Search Error:", .str error.message]
    return .obj [("characters", .arr [])]

/-- The method `getVSBattlesDetail(url)` (lines 77-87). -/
def GoImageService.getVSBattlesDetail (self : GoImageService) (url : JsVal) : Eff JsVal := do
  try
    let response ← self.client.get "/api/scrape/vsbattles/detail"
      { params := [("url", url)] }
    return response.data
  catch error =>
    console.error [.str "GoService VSB Detail Error:", .str error.message]
    throw error

/-! ## Requests each operation is expected to issue -/

/-- The request of `healthCheck`: `GET /health`, no parameters, no body. -/
def healthRequest (self : GoImageService) : Request :=
  { method := .GET, baseURL := self.client.defaults.baseURL, url := "/health",
    params := [], data := none, responseType := none,
    timeout := self.client.defaults.timeout,
    maxBodyLength := self.client.defaults.maxBodyLength,
    maxContentLength := self.client.defaults.maxContentLength }

/-- The request of `generateCombatImage`: `POST /api/combat` with the payload as
body and a binary response type. -/
def combatRequest (self : GoImageService) (data : JsVal) : Request :=
  { method := .POST, baseURL := self.client.defaults.baseURL, url := "/api/combat",
    params := [], data := some data, responseType := some "arraybuffer",
    timeout := self.client.defaults.timeout,
    maxBodyLength := self.client.defaults.maxBodyLength,
    maxContentLength := self.client.defaults.maxContentLength }

/-- The request of `searchPinterest`: `GET /api/scrape/pinterest` with the
parameters `query` and `maxResults` (10 when the argument is `undefined`). -/
def pinterestRequest (self : GoImageService) (query maxResultsArg : JsVal) : Request :=
  { method := .GET, baseURL := self.client.defaults.baseURL, url := "/api/scrape/pinterest",
    params := [("query", query), ("maxResults", defaultParam maxResultsArg (.num 10))],
    data := none, responseType := none,
    timeout := self.client.defaults.timeout,
    maxBodyLength := self.client.defaults.maxBodyLength,
    maxContentLength := self.client.defaults.maxContentLength }

/-- The request of `searchVSBattles`: `GET /api/scrape/vsbattles/search` with the
parameter `query`. -/
def vsbSearchRequest (self : GoImageService) (characterName : JsVal) : Request :=
  { method := .GET, baseURL := self.client.defaults.baseURL,
    url := "/api/scrape/vsbattles/search",
    params := [("query", characterName)], data := none, responseType := none,
    timeout := self.client.defaults.timeout,
    maxBodyLength := self.client.defaults.maxBodyLength,
    maxContentLength := self.client.defaults.maxContentLength }

/-- The request of `getVSBattlesDetail`: `GET /api/scrape/vsbattles/detail` with
the parameter `url`. -/
def vsbDetailRequest (self : GoImageService) (url : JsVal) : Request :=
  { method := .GET, baseURL := self.client.defaults.baseURL,
    url := "/api/scrape/vsbattles/detail",
    params := [("url", url)], data := none, responseType := none,
    timeout := self.client.defaults.timeout,
    maxBodyLength := self.client.defaults.maxBodyLength,
    maxContentLength := self.client.defaults.maxContentLength }

/-- The trace after one more request. -/
def Trace.issued (t : Trace) (req : Request) : Trace :=
  { t with requests := t.requests ++ [req] }

/-- The trace after one more `console.error(label, message)`. -/
def Trace.logged (t : Trace) (label message : String) : Trace :=
  { t with diagnostics := t.diagnostics ++ [[.str label, .str message]] }

/-- The name of the environment variable the constructor reads. -/
def urlVariable : String := "GO_IMAGE_SERVICE_URL"

/-- The literal default base URL. -/
def defaultUrl : String := "http://localhost:8080"

/-- The object a constructor call builds around a resolved base URL. -/
def serviceAt (baseUrl : JsVal) : GoImageService :=
  { baseUrl := baseUrl,
    client := axios.create
      { baseURL := baseUrl, timeout := 60000, maxBodyLength := none, maxContentLength := none } }

/-! ## Fixtures for concrete runs -/

/-- A timeout fault as axios reports it. -/
def timeoutFault : Fault :=
  { name := "AxiosError", message := "timeout of 60000ms exceeded",
    code := some "ECONNABORTED", status := none }

/-- A refused connection. -/
def refusedFault : Fault :=
  { name := "Error", message := "connect ECONNREFUSED 127.0.0.1:8080",
    code := some "ECONNREFUSED", status := none }

/-- A 500 answer, which axios turns into a rejection. -/
def status500Fault : Fault :=
  { name := "AxiosError", message := "Request failed with status code 500",
    code := some "ERR_BAD_RESPONSE", status := some 500 }

/-- The TypeError of `Buffer.from` on a value it cannot convert. -/
def bufferTypeError : Fault :=
  { name := "TypeError", message := "The first argument must be of type string or an instance of Buffer, ArrayBuffer, or Array or an Array-like Object.",
    code := some "ERR_INVALID_ARG_TYPE", status := none }

/-- Surroundings in which every call is rejected with the fault `e`. -/
def downEnv (e : Fault) : Env :=
  { processEnv := fun _ => none,
    transport := fun _ => .error e,
    bufferFromOther := fun _ => .error bufferTypeError }

/-- Surroundings in which every call resolves with status 200 and body `b`. -/
def upEnv (b : JsVal) : Env :=
  { processEnv := fun _ => none,
    transport := fun _ => .ok { data := b, status := 200 },
    bufferFromOther := fun _ => .error bufferTypeError }

/-- Surroundings whose only difference from `downEnv` is the value of the URL
variable. -/
def envWithUrl (value : Option String) : Env :=
  { processEnv := fun name => if name = urlVariable then value else none,
    transport := fun _ => .error refusedFault,
    bufferFromOther := fun _ => .error bufferTypeError }

/-- The body `{ images: [{url:"a"},{url:"b"}] }`. -/
def twoImages : JsVal :=
  .obj [("images", .arr [.obj [("url", .str "a")], .obj [("url", .str "b")]])]

/-- A mock that answers `GET /api/scrape/pinterest?query=cat&maxResults=3` with
`twoImages` and everything else with a 500. -/
def catMock : Env :=
  { processEnv := fun _ => none,
    transport := fun req =>
      match req.method, req.url, req.params with
      | .GET, "/api/scrape/pinterest", [("query", .str "cat"), ("maxResults", .num 3)] =>
        .ok { data := twoImages, status := 200 }
      | _, _, _ => .error status500Fault,
    bufferFromOther := fun _ => .error bufferTypeError }

/-- A client on the default URL. -/
def sampleService : GoImageService := serviceAt (.str defaultUrl)

/-- A combat payload. -/
def samplePayload : JsVal :=
  .obj [("players", .arr []), ("enemies", .arr []), ("combatType", .str "PVE"),
    ("background", .str "forest.png")]

/-- The first bytes of a PNG file. -/
def pngBytes : List Byte := [137, 80, 78, 71, 13, 10, 26, 10]

/-! ## How each operation runs -/

theorem truthy_undefined : JsVal.undefined.truthy = false := rfl

theorem truthy_empty : (JsVal.str "").truthy = false := by decide

theorem truthy_str (s : String) (h : s ≠ "") : (JsVal.str s).truthy = true := by
  simp [JsVal.truthy, h]

theorem jsOr_truthy (a b : JsVal) (h : a.truthy = true) : jsOr a b = a := by
  simp [jsOr, h]

theorem jsOr_falsy (a b : JsVal) (h : a.truthy = false) : jsOr a b = b := by
  simp [jsOr, h]

theorem constructor_run (serviceUrl : JsVal) (w : Env) (t : Trace) :
    GoImageService.constructor serviceUrl w t =
      (.ok (serviceAt (jsOr (jsOr serviceUrl (ofOptString (w.processEnv urlVariable)))
        (.str defaultUrl))), t) := rfl

theorem healthCheck_of_ok (self : GoImageService) (w : Env) (t : Trace) (r : Response)
    (h : w.transport (healthRequest self) = .ok r) :
    self.healthCheck w t = (.ok r.data, t.issued (healthRequest self)) := by
  have h2 : w.transport
      { method := .GET, baseURL := self.client.defaults.baseURL, url := "/health",
        params := [], data := none, responseType := none,
        timeout := self.client.defaults.timeout,
        maxBodyLength := self.client.defaults.maxBodyLength,
        maxContentLength := self.client.defaults.maxContentLength } = .ok r := h
  simp only [GoImageService.healthCheck, tryCatch, tryCatchThe, MonadExcept.tryCatch,
    Eff.tryCatch, bind, Eff.bind, pure, Eff.pure, AxiosInstance.get, AxiosInstance.request, h2]
  rfl

theorem healthCheck_of_error (self : GoImageService) (w : Env) (t : Trace) (e : Fault)
    (h : w.transport (healthRequest self) = .error e) :
    self.healthCheck w t = (.ok .null, t.issued (healthRequest self)) := by
  have h2 : w.transport
      { method := .GET, baseURL := self.client.defaults.baseURL, url := "/health",
        params := [], data := none, responseType := none,
        timeout := self.client.defaults.timeout,
        maxBodyLength := self.client.defaults.maxBodyLength,
        maxContentLength := self.client.defaults.maxContentLength } = .error e := h
  simp only [GoImageService.healthCheck, tryCatch, tryCatchThe, MonadExcept.tryCatch,
    Eff.tryCatch, bind, Eff.bind, pure, Eff.pure, AxiosInstance.get, AxiosInstance.request, h2]
  rfl

theorem generateCombatImage_of_error (self : GoImageService) (data : JsVal) (w : Env)
    (t : Trace) (e : Fault) (h : w.transport (combatRequest self data) = .error e) :
    self.generateCombatImage data w t =
      (.error e, (t.issued (combatRequest self data)).logged "GoService Combat Error:"
        e.message) := by
  have h2 : w.transport
      { method := .POST, baseURL := self.client.defaults.baseURL, url := "/api/combat",
        params := [], data := some data, responseType := some "arraybuffer",
        timeout := self.client.defaults.timeout,
        maxBodyLength := self.client.defaults.maxBodyLength,
        maxContentLength := self.client.defaults.maxContentLength } = .error e := h
  simp only [GoImageService.generateCombatImage, tryCatch, tryCatchThe, MonadExcept.tryCatch,
    Eff.tryCatch, bind, Eff.bind, pure, Eff.pure, AxiosInstance.post, AxiosInstance.request,
    throw, throwThe, MonadExcept.throw, Eff.throw, console.error, h2]
  rfl

theorem generateCombatImage_of_ok (self : GoImageService) (data : JsVal) (w : Env)
    (t : Trace) (r : Response) (q : List Byte)
    (h : w.transport (combatRequest self data) = .ok r) (hq : w.bufferFrom r.data = .ok q) :
    self.generateCombatImage data w t =
      (.ok (.bytes q), t.issued (combatRequest self data)) := by
  have h2 : w.transport
      { method := .POST, baseURL := self.client.defaults.baseURL, url := "/api/combat",
        params := [], data := some data, responseType := some "arraybuffer",
        timeout := self.client.defaults.timeout,
        maxBodyLength := self.client.defaults.maxBodyLength,
        maxContentLength := self.client.defaults.maxContentLength } = .ok r := h
  simp only [GoImageService.generateCombatImage, tryCatch, tryCatchThe, MonadExcept.tryCatch,
    Eff.tryCatch, bind, Eff.bind, pure, Eff.pure, AxiosInstance.post, AxiosInstance.request,
    throw, throwThe, MonadExcept.throw, Eff.throw, console.error, Buffer.from, h2, hq]
  rfl

theorem generateCombatImage_of_bad_body (self : GoImageService) (data : JsVal) (w : Env)
    (t : Trace) (r : Response) (e : Fault)
    (h : w.transport (combatRequest self data) = .ok r) (hq : w.bufferFrom r.data = .error e) :
    self.generateCombatImage data w t =
      (.error e, (t.issued (combatRequest self data)).logged "GoService Combat Error:"
        e.message) := by
  have h2 : w.transport
      { method := .POST, baseURL := self.client.defaults.baseURL, url := "/api/combat",
        params := [], data := some data, responseType := some "arraybuffer",
        timeout := self.client.defaults.timeout,
        maxBodyLength := self.client.defaults.maxBodyLength,
        maxContentLength := self.client.defaults.maxContentLength } = .ok r := h
  simp only [GoImageService.generateCombatImage, tryCatch, tryCatchThe, MonadExcept.tryCatch,
    Eff.tryCatch, bind, Eff.bind, pure, Eff.pure, AxiosInstance.post, AxiosInstance.request,
    throw, throwThe, MonadExcept.throw, Eff.throw, console.error, Buffer.from, h2, hq]
  rfl

theorem searchPinterest_of_ok (self : GoImageService) (query maxResults : JsVal) (w : Env)
    (t : Trace) (r : Response)
    (h : w.transport (pinterestRequest self query maxResults) = .ok r) :
    self.searchPinterest query maxResults w t =
      (.ok r.data, t.issued (pinterestRequest self query maxResults)) := by
  have h2 : w.transport
      { method := .GET, baseURL := self.client.defaults.baseURL,
        url := "/api/scrape/pinterest",
        params := [("query", query), ("maxResults", defaultParam maxResults (.num 10))],
        data := none, responseType := none,
        timeout := self.client.defaults.timeout,
        maxBodyLength := self.client.defaults.maxBodyLength,
        maxContentLength := self.client.defaults.maxContentLength } = .ok r := h
  simp only [GoImageService.searchPinterest, tryCatch, tryCatchThe, MonadExcept.tryCatch,
    Eff.tryCatch, bind, Eff.bind, pure, Eff.pure, AxiosInstance.get, AxiosInstance.request,
    console.error, h2]
  rfl

theorem searchPinterest_of_error (self : GoImageService) (query maxResults : JsVal) (w : Env)
    (t : Trace) (e : Fault)
    (h : w.transport (pinterestRequest self query maxResults) = .error e) :
    self.searchPinterest query maxResults w t =
      (.ok (.obj [("images", .arr [])]),
        (t.issued (pinterestRequest self query maxResults)).logged
          "GoService Pinterest Error:" e.message) := by
  have h2 : w.transport
      { method := .GET, baseURL := self.client.defaults.baseURL,
        url := "/api/scrape/pinterest",
        params := [("query", query), ("maxResults", defaultParam maxResults (.num 10))],
        data := none, responseType := none,
        timeout := self.client.defaults.timeout,
        maxBodyLength := self.client.defaults.maxBodyLength,
        maxContentLength := self.client.defaults.maxContentLength } = .error e := h
  simp only [GoImageService.searchPinterest, tryCatch, tryCatchThe, MonadExcept.tryCatch,
    Eff.tryCatch, bind, Eff.bind, pure, Eff.pure, AxiosInstance.get, AxiosInstance.request,
    console.error, h2]
  rfl

theorem searchVSBattles_of_ok (self : GoImageService) (characterName : JsVal) (w : Env)
    (t : Trace) (r : Response)
    (h : w.transport (vsbSearchRequest self characterName) = .ok r) :
    self.searchVSBattles characterName w t =
      (.ok r.data, t.issued (vsbSearchRequest self characterName)) := by
  have h2 : w.transport
      { method := .GET, baseURL := self.client.defaults.baseURL,
        url := "/api/scrape/vsbattles/search",
        params := [("query", characterName)], data := none, responseType := none,
        timeout := self.client.defaults.timeout,
        maxBodyLength := self.client.defaults.maxBodyLength,
        maxContentLength := self.client.defaults.maxContentLength } = .ok r := h
  simp only [GoImageService.searchVSBattles, tryCatch, tryCatchThe, MonadExcept.tryCatch,
    Eff.tryCatch, bind, Eff.bind, pure, Eff.pure, AxiosInstance.get, AxiosInstance.request,
    console.error, h2]
  rfl

theorem searchVSBattles_of_error (self : GoImageService) (characterName : JsVal) (w : Env)
    (t : Trace) (e : Fault)
    (h : w.transport (vsbSearchRequest self characterName) = .error e) :
    self.searchVSBattles characterName w t =
      (.ok (.obj [("characters", .arr [])]),
        (t.issued (vsbSearchRequest self characterName)).logged
          "GoService VSB Search Error:" e.message) := by
  have h2 : w.transport
      { method := .GET, baseURL := self.client.defaults.baseURL,
        url := "/api/scrape/vsbattles/search",
        params := [("query", characterName)], data := none, responseType := none,
        timeout := self.client.defaults.timeout,
        maxBodyLength := self.client.defaults.maxBodyLength,
        maxContentLength := self.client.defaults.maxContentLength } = .error e := h
  simp only [GoImageService.searchVSBattles, tryCatch, tryCatchThe, MonadExcept.tryCatch,
    Eff.tryCatch, bind, Eff.bind, pure, Eff.pure, AxiosInstance.get, AxiosInstance.request,
    console.error, h2]
  rfl

theorem getVSBattlesDetail_of_ok (self : GoImageService) (url : JsVal) (w : Env)
    (t : Trace) (r : Response)
    (h : w.transport (vsbDetailRequest self url) = .ok r) :
    self.getVSBattlesDetail url w t =
      (.ok r.data, t.issued (vsbDetailRequest self url)) := by
  have h2 : w.transport
      { method := .GET, baseURL := self.client.defaults.baseURL,
        url := "/api/scrape/vsbattles/detail",
        params := [("url", url)], data := none, responseType := none,
        timeout := self.client.defaults.timeout,
        maxBodyLength := self.client.defaults.maxBodyLength,
        maxContentLength := self.client.defaults.maxContentLength } = .ok r := h
  simp only [GoImageService.getVSBattlesDetail, tryCatch, tryCatchThe, MonadExcept.tryCatch,
    Eff.tryCatch, bind, Eff.bind, pure, Eff.pure, AxiosInstance.get, AxiosInstance.request,
    throw, throwThe, MonadExcept.throw, Eff.throw, console.error, h2]
  rfl

theorem getVSBattlesDetail_of_error (self : GoImageService) (url : JsVal) (w : Env)
    (t : Trace) (e : Fault)
    (h : w.transport (vsbDetailRequest self url) = .error e) :
    self.getVSBattlesDetail url w t =
      (.error e, (t.issued (vsbDetailRequest self url)).logged
        "GoService VSB Detail Error:" e.message) := by
  have h2 : w.transport
      { method := .GET, baseURL := self.client.defaults.baseURL,
        url := "/api/scrape/vsbattles/detail",
        params := [("url", url)], data := none, responseType := none,
        timeout := self.client.defaults.timeout,
        maxBodyLength := self.client.defaults.maxBodyLength,
        maxContentLength := self.client.defaults.maxContentLength } = .error e := h
  simp only [GoImageService.getVSBattlesDetail, tryCatch, tryCatchThe, MonadExcept.tryCatch,
    Eff.tryCatch, bind, Eff.bind, pure, Eff.pure, AxiosInstance.get, AxiosInstance.request,
    throw, throwThe, MonadExcept.throw, Eff.throw, console.error, h2]
  rfl

/-! ## The claims -/

/-- Claim C1: `healthCheck` never raises.  Whatever the `GET /health` call does:
when it fails with a fault (any fault) the result is `null`, when it resolves
with a response the result is that response's body unchanged, and in every case
the result is a returned value, never a fault. -/
theorem healthCheck_never_raises (self : GoImageService) (w : Env) (t : Trace) :
    (∀ e : Fault, w.transport (healthRequest self) = .error e →
      (self.healthCheck w t).1 = .ok .null) ∧
    (∀ r : Response, w.transport (healthRequest self) = .ok r →
      (self.healthCheck w t).1 = .ok r.data) ∧
    (∃ v : JsVal, (self.healthCheck w t).1 = .ok v) := by
  refine ⟨fun e h => ?_, fun r h => ?_, ?_⟩
  · rw [healthCheck_of_error self w t e h]
  · rw [healthCheck_of_ok self w t r h]
  · cases h : w.transport (healthRequest self) with
    | error e => exact ⟨.null, by rw [healthCheck_of_error self w t e h]⟩
    | ok r => exact ⟨r.data, by rw [healthCheck_of_ok self w t r h]⟩

/-- A timeout, a refused connection and a 500 status all give `null`; a 200 answer
gives its body. -/
theorem healthCheck_never_raises_witness :
    (sampleService.healthCheck (downEnv timeoutFault) Trace.empty).1 = .ok .null ∧
    (sampleService.healthCheck (downEnv refusedFault) Trace.empty).1 = .ok .null ∧
    (sampleService.healthCheck (downEnv status500Fault) Trace.empty).1 = .ok .null ∧
    (sampleService.healthCheck (upEnv (.obj [("status", .str "ok")])) Trace.empty).1 =
      .ok (.obj [("status", .str "ok")]) :=
  ⟨(healthCheck_never_raises sampleService (downEnv timeoutFault) Trace.empty).1
      timeoutFault rfl,
   (healthCheck_never_raises sampleService (downEnv refusedFault) Trace.empty).1
      refusedFault rfl,
   (healthCheck_never_raises sampleService (downEnv status500Fault) Trace.empty).1
      status500Fault rfl,
   (healthCheck_never_raises sampleService (upEnv (.obj [("status", .str "ok")]))
      Trace.empty).2.1 ⟨.obj [("status", .str "ok")], 200⟩ rfl⟩

/-- Claim C2: on a transport fault `searchPinterest` returns exactly
`{ images: [] }` and `searchVSBattles` returns exactly `{ characters: [] }`, as
returned values (nothing is raised), for every query, every `maxResults` (also
omitted) and every fault; two runs that fail with different faults return equal
results. -/
theorem search_fallback_on_fault (self : GoImageService)
    (query maxResults characterName : JsVal) (t : Trace) :
    (∀ (w : Env) (e : Fault), w.transport (pinterestRequest self query maxResults) = .error e →
      (self.searchPinterest query maxResults w t).1 = .ok (.obj [("images", .arr [])])) ∧
    (∀ (w : Env) (e : Fault), w.transport (vsbSearchRequest self characterName) = .error e →
      (self.searchVSBattles characterName w t).1 = .ok (.obj [("characters", .arr [])])) ∧
    (∀ (w1 w2 : Env) (e1 e2 : Fault),
      w1.transport (pinterestRequest self query maxResults) = .error e1 →
      w2.transport (pinterestRequest self query maxResults) = .error e2 →
      (self.searchPinterest query maxResults w1 t).1 =
        (self.searchPinterest query maxResults w2 t).1) ∧
    (∀ (w1 w2 : Env) (e1 e2 : Fault),
      w1.transport (vsbSearchRequest self characterName) = .error e1 →
      w2.transport (vsbSearchRequest self characterName) = .error e2 →
      (self.searchVSBattles characterName w1 t).1 =
        (self.searchVSBattles characterName w2 t).1) := by
  refine ⟨fun w e h => ?_, fun w e h => ?_, fun w1 w2 e1 e2 h1 h2 => ?_,
    fun w1 w2 e1 e2 h1 h2 => ?_⟩
  · rw [searchPinterest_of_error self query maxResults w t e h]
  · rw [searchVSBattles_of_error self characterName w t e h]
  · rw [searchPinterest_of_error self query maxResults w1 t e1 h1,
      searchPinterest_of_error self query maxResults w2 t e2 h2]
  · rw [searchVSBattles_of_error self characterName w1 t e1 h1,
      searchVSBattles_of_error self characterName w2 t e2 h2]

/-- The mocked network error of the scenario: `searchPinterest("cat", 3)` returns
`{ images: [] }`, and so does a timed-out call with `maxResults` omitted. -/
theorem search_fallback_on_fault_witness :
    (sampleService.searchPinterest (.str "cat") (.num 3) (downEnv refusedFault)
      Trace.empty).1 = .ok (.obj [("images", .arr [])]) ∧
    (sampleService.searchVSBattles (.str "Goku") (downEnv timeoutFault)
      Trace.empty).1 = .ok (.obj [("characters", .arr [])]) ∧
    (sampleService.searchPinterest (.str "cat") .undefined (downEnv refusedFault)
      Trace.empty).1 =
      (sampleService.searchPinterest (.str "cat") .undefined (downEnv timeoutFault)
        Trace.empty).1 :=
  ⟨(search_fallback_on_fault sampleService (.str "cat") (.num 3) (.str "Goku")
      Trace.empty).1 (downEnv refusedFault) refusedFault rfl,
   (search_fallback_on_fault sampleService (.str "cat") (.num 3) (.str "Goku")
      Trace.empty).2.1 (downEnv timeoutFault) timeoutFault rfl,
   (search_fallback_on_fault sampleService (.str "cat") .undefined (.str "Goku")
      Trace.empty).2.2.1 (downEnv refusedFault) (downEnv timeoutFault) refusedFault
      timeoutFault rfl rfl⟩

/-- Claim C3: the propagating operations re-raise the fault.  `generateCombatImage`
raises `e` exactly when its `POST` call fails with `e` or the call resolves and
converting the body to a buffer fails with `e`; `getVSBattlesDetail` raises `e`
exactly when its `GET` call fails with `e`.  So the fault raised is the fault that
was caught, and a failure is never answered with a returned value. -/
theorem propagating_operations_reraise (self : GoImageService) (data url : JsVal)
    (w : Env) (t : Trace) (e : Fault) :
    ((self.generateCombatImage data w t).1 = .error e ↔
      (w.transport (combatRequest self data) = .error e ∨
        ∃ r : Response, w.transport (combatRequest self data) = .ok r ∧
          w.bufferFrom r.data = .error e)) ∧
    ((self.getVSBattlesDetail url w t).1 = .error e ↔
      w.transport (vsbDetailRequest self url) = .error e) := by
  constructor
  · cases h : w.transport (combatRequest self data) with
    | error e1 =>
      rw [generateCombatImage_of_error self data w t e1 h]
      simp
    | ok r =>
      cases hq : w.bufferFrom r.data with
      | error e1 =>
        rw [generateCombatImage_of_bad_body self data w t r e1 h hq]
        constructor
        · intro he
          have he1 : e1 = e := by simpa using he
          exact Or.inr ⟨r, rfl, by rw [hq, he1]⟩
        · rintro (h1 | ⟨r1, h1, h2⟩)
          · cases h1
          · have hr : r = r1 := by simpa using h1
            subst hr
            rw [hq] at h2
            simpa using h2
      | ok q =>
        rw [generateCombatImage_of_ok self data w t r q h hq]
        constructor
        · intro he
          cases he
        · rintro (h1 | ⟨r1, h1, h2⟩)
          · cases h1
          · have hr : r = r1 := by simpa using h1
            subst hr
            rw [hq] at h2
            cases h2
  · cases h : w.transport (vsbDetailRequest self url) with
    | error e1 =>
      rw [getVSBattlesDetail_of_error self url w t e1 h]
      simp
    | ok r =>
      rw [getVSBattlesDetail_of_ok self url w t r h]
      simp

/-- A timed-out combat call raises the timeout; a combat call answered with a
number instead of bytes raises the conversion TypeError; a detail lookup answered
with 500 raises that fault. -/
theorem propagating_operations_reraise_witness :
    (sampleService.generateCombatImage samplePayload (downEnv timeoutFault)
      Trace.empty).1 = .error timeoutFault ∧
    (sampleService.generateCombatImage samplePayload (upEnv (.num 7))
      Trace.empty).1 = .error bufferTypeError ∧
    (sampleService.getVSBattlesDetail (.str "https://vsbattles.fandom.com/wiki/Goku")
      (downEnv status500Fault) Trace.empty).1 = .error status500Fault :=
  ⟨(propagating_operations_reraise sampleService samplePayload .null
      (downEnv timeoutFault) Trace.empty timeoutFault).1.2 (Or.inl rfl),
   (propagating_operations_reraise sampleService samplePayload .null
      (upEnv (.num 7)) Trace.empty bufferTypeError).1.2 (Or.inr ⟨⟨.num 7, 200⟩, rfl, rfl⟩),
   (propagating_operations_reraise sampleService samplePayload
      (.str "https://vsbattles.fandom.com/wiki/Goku")
      (downEnv status500Fault) Trace.empty status500Fault).2.2 rfl⟩

/-- Claim C4, as stated, fails: when the `POST /api/combat` call times out,
`generateCombatImage` raises the timeout fault itself, whose message is
"timeout of 60000ms exceeded"; that message holds neither the label
"GoService Combat Error" nor any spelling of the word combat. -/
theorem combat_fault_message_lacks_context :
    (downEnv timeoutFault).transport (combatRequest sampleService samplePayload) =
      .error timeoutFault ∧
    (sampleService.generateCombatImage samplePayload (downEnv timeoutFault)
      Trace.empty).1 = .error timeoutFault ∧
    timeoutFault.message = "timeout of 60000ms exceeded" ∧
    ¬ ("GoService Combat Error".toList <:+: timeoutFault.message.toList) ∧
    ¬ ("ombat".toList <:+: timeoutFault.message.toList) := by
  refine ⟨rfl, ?_, rfl, by decide, by decide⟩
  rw [generateCombatImage_of_error sampleService samplePayload (downEnv timeoutFault)
    Trace.empty timeoutFault rfl]

/-- Claim C4, amended: for every transport failure `e` of the `POST /api/combat`
call, `generateCombatImage` raises `e` itself, so the raised message is `e`'s own
message with nothing added; the operation's identifying context, the label
"GoService Combat Error:", is in the diagnostic logged for the failure, next to
`e`'s message. -/
theorem combat_fault_reraised_and_labelled (self : GoImageService) (data : JsVal)
    (w : Env) (t : Trace) (e : Fault)
    (h : w.transport (combatRequest self data) = .error e) :
    (self.generateCombatImage data w t).1 = .error e ∧
    (∀ raised : Fault, (self.generateCombatImage data w t).1 = .error raised →
      raised.message = e.message) ∧
    (self.generateCombatImage data w t).2.diagnostics =
      t.diagnostics ++ [[.str "GoService Combat Error:", .str e.message]] := by
  rw [generateCombatImage_of_error self data w t e h]
  refine ⟨rfl, fun raised hr => ?_, rfl⟩
  have : e = raised := by simpa using hr
  rw [this]

/-- A refused connection: the fault raised is the refusal, and the one diagnostic
carries the combat label and the refusal's message. -/
theorem combat_fault_reraised_and_labelled_witness :
    (sampleService.generateCombatImage samplePayload (downEnv refusedFault)
      Trace.empty).1 = .error refusedFault ∧
    (sampleService.generateCombatImage samplePayload (downEnv refusedFault)
      Trace.empty).2.diagnostics =
      [[.str "GoService Combat Error:", .str "connect ECONNREFUSED 127.0.0.1:8080"]] :=
  ⟨(combat_fault_reraised_and_labelled sampleService samplePayload (downEnv refusedFault)
      Trace.empty refusedFault rfl).1,
   (combat_fault_reraised_and_labelled sampleService samplePayload (downEnv refusedFault)
      Trace.empty refusedFault rfl).2.2⟩

/-- Claim C5: JSON pass-through on success.  When the transport call resolves with
a response, `searchPinterest`, `searchVSBattles` and `getVSBattlesDetail` each
return exactly that response's body, whatever value it is. -/
theorem json_pass_through (self : GoImageService)
    (query maxResults characterName url : JsVal) (w : Env) (t : Trace) :
    (∀ r : Response, w.transport (pinterestRequest self query maxResults) = .ok r →
      (self.searchPinterest query maxResults w t).1 = .ok r.data) ∧
    (∀ r : Response, w.transport (vsbSearchRequest self characterName) = .ok r →
      (self.searchVSBattles characterName w t).1 = .ok r.data) ∧
    (∀ r : Response, w.transport (vsbDetailRequest self url) = .ok r →
      (self.getVSBattlesDetail url w t).1 = .ok r.data) := by
  refine ⟨fun r h => ?_, fun r h => ?_, fun r h => ?_⟩
  · rw [searchPinterest_of_ok self query maxResults w t r h]
  · rw [searchVSBattles_of_ok self characterName w t r h]
  · rw [getVSBattlesDetail_of_ok self url w t r h]

/-- The scenario of the specification: with `GET /api/scrape/pinterest`,
`query=cat`, `maxResults=3` mocked to answer `{ images: [{url:"a"},{url:"b"}] }`,
`searchPinterest("cat", 3)` returns that object; a body of an unexpected shape
(a bare number) passes through the other two operations as it is. -/
theorem json_pass_through_witness :
    (sampleService.searchPinterest (.str "cat") (.num 3) catMock Trace.empty).1 =
      .ok (.obj [("images", .arr [.obj [("url", .str "a")], .obj [("url", .str "b")]])]) ∧
    (sampleService.searchVSBattles (.str "Goku") (upEnv (.num 42)) Trace.empty).1 =
      .ok (.num 42) ∧
    (sampleService.getVSBattlesDetail (.str "https://vsbattles.fandom.com/wiki/Goku")
      (upEnv (.num 42)) Trace.empty).1 = .ok (.num 42) :=
  ⟨(json_pass_through sampleService (.str "cat") (.num 3) (.str "Goku")
      (.str "https://vsbattles.fandom.com/wiki/Goku") catMock Trace.empty).1
      ⟨twoImages, 200⟩ rfl,
   (json_pass_through sampleService (.str "cat") (.num 3) (.str "Goku")
      (.str "https://vsbattles.fandom.com/wiki/Goku") (upEnv (.num 42)) Trace.empty).2.1
      ⟨.num 42, 200⟩ rfl,
   (json_pass_through sampleService (.str "cat") (.num 3) (.str "Goku")
      (.str "https://vsbattles.fandom.com/wiki/Goku") (upEnv (.num 42)) Trace.empty).2.2
      ⟨.num 42, 200⟩ rfl⟩

/-- Claim C6: for every payload, when the `POST /api/combat` call resolves with a
body that is the byte sequence `p`, `generateCombatImage` returns a buffer of the
same length holding the same bytes in the same order. -/
theorem combat_image_byte_identical (self : GoImageService) (data : JsVal) (w : Env)
    (t : Trace) (r : Response) (p : List Byte)
    (h : w.transport (combatRequest self data) = .ok r) (hp : r.data = .bytes p) :
    (self.generateCombatImage data w t).1 = .ok (.bytes p) ∧
    (∀ q : List Byte, (self.generateCombatImage data w t).1 = .ok (.bytes q) →
      q.length = p.length ∧ q = p) := by
  have hq : w.bufferFrom r.data = .ok p := by rw [hp]; rfl
  rw [generateCombatImage_of_ok self data w t r p h hq]
  refine ⟨rfl, fun q hqp => ?_⟩
  have : p = q := by simpa using hqp
  subst this
  exact ⟨rfl, rfl⟩

/-- A mocked answer holding the eight bytes of the PNG signature comes back as
those eight bytes. -/
theorem combat_image_byte_identical_witness :
    (sampleService.generateCombatImage samplePayload (upEnv (.bytes pngBytes))
      Trace.empty).1 = .ok (.bytes [137, 80, 78, 71, 13, 10, 26, 10]) :=
  (combat_image_byte_identical sampleService samplePayload (upEnv (.bytes pngBytes))
    Trace.empty ⟨.bytes pngBytes, 200⟩ pngBytes rfl rfl).1

/-- Claim C7, as stated, fails on an empty string: constructed with the explicit
argument `""` while the environment variable is "http://10.0.0.5:9000", the
client's `baseUrl` is the environment value and not the explicit argument; and
with no argument while the variable is set to `""`, the `baseUrl` is the literal
default and not the environment value. -/
theorem explicit_empty_url_not_used :
    (∃ svc : GoImageService,
      GoImageService.constructor (.str "") (envWithUrl (some "http://10.0.0.5:9000"))
        Trace.empty = (.ok svc, Trace.empty) ∧
      svc.baseUrl = .str "http://10.0.0.5:9000" ∧ svc.baseUrl ≠ .str "") ∧
    (∃ svc : GoImageService,
      GoImageService.constructor .undefined (envWithUrl (some "")) Trace.empty =
        (.ok svc, Trace.empty) ∧
      (envWithUrl (some "")).processEnv "GO_IMAGE_SERVICE_URL" = some "" ∧
      svc.baseUrl = .str "http://localhost:8080" ∧ svc.baseUrl ≠ .str "") := by
  refine ⟨⟨serviceAt (.str "http://10.0.0.5:9000"), rfl, rfl, ?_⟩,
    ⟨serviceAt (.str "http://localhost:8080"), rfl, rfl, rfl, ?_⟩⟩
  · intro h
    simp [serviceAt] at h
  · intro h
    simp [serviceAt] at h

/-- Claim C7, amended: for every optional explicit string argument and every
optional value of `GO_IMAGE_SERVICE_URL`, construction succeeds, the transport's
`baseURL` is the client's `baseUrl`, and that `baseUrl` is the explicit argument
whenever one is given and is not the empty string, otherwise the environment
value whenever one is set and is not the empty string, otherwise the literal
"http://localhost:8080". -/
theorem baseUrl_resolution_priority (arg envVal : Option String) (w : Env) (t : Trace)
    (henv : w.processEnv "GO_IMAGE_SERVICE_URL" = envVal) :
    ∃ svc : GoImageService,
      GoImageService.constructor (ofOptString arg) w t = (.ok svc, t) ∧
      svc.client.defaults.baseURL = svc.baseUrl ∧
      (∀ s : String, arg = some s → s ≠ "" → svc.baseUrl = .str s) ∧
      ((arg = none ∨ arg = some "") →
        ∀ s : String, envVal = some s → s ≠ "" → svc.baseUrl = .str s) ∧
      ((arg = none ∨ arg = some "") → (envVal = none ∨ envVal = some "") →
        svc.baseUrl = .str "http://localhost:8080") := by
  have henv2 : w.processEnv urlVariable = envVal := henv
  refine ⟨_, constructor_run (ofOptString arg) w t, rfl, ?_, ?_, ?_⟩
  · intro s hs hne
    subst hs
    simp [serviceAt, jsOr, ofOptString, JsVal.truthy, hne]
  · intro ha s hs hne
    rw [henv2, hs]
    rcases ha with ha | ha <;> subst ha <;>
      simp [serviceAt, jsOr, ofOptString, JsVal.truthy, hne]
  · intro ha he
    rw [henv2]
    rcases ha with ha | ha <;> rcases he with he | he <;> subst ha <;> subst he <;>
      simp [serviceAt, jsOr, ofOptString, JsVal.truthy, defaultUrl]

/-- The three levels of the priority at concrete inputs: an explicit URL wins over
a set variable, a set variable wins over the default, and with neither the default
is used. -/
theorem baseUrl_resolution_priority_witness :
    (∃ svc : GoImageService,
      GoImageService.constructor (.str "http://img:1") (envWithUrl (some "http://env:2"))
        Trace.empty = (.ok svc, Trace.empty) ∧
      svc.baseUrl = .str "http://img:1" ∧ svc.client.defaults.baseURL = .str "http://img:1") ∧
    (∃ svc : GoImageService,
      GoImageService.constructor .undefined (envWithUrl (some "http://env:2"))
        Trace.empty = (.ok svc, Trace.empty) ∧ svc.baseUrl = .str "http://env:2") ∧
    (∃ svc : GoImageService,
      GoImageService.constructor .undefined (envWithUrl none)
        Trace.empty = (.ok svc, Trace.empty) ∧ svc.baseUrl = .str "http://localhost:8080") := by
  obtain ⟨s1, h1, hb1, ha1, _, _⟩ := baseUrl_resolution_priority (some "http://img:1")
    (some "http://env:2") (envWithUrl (some "http://env:2")) Trace.empty rfl
  obtain ⟨s2, h2, _, _, he2, _⟩ := baseUrl_resolution_priority none
    (some "http://env:2") (envWithUrl (some "http://env:2")) Trace.empty rfl
  obtain ⟨s3, h3, _, _, _, hd3⟩ := baseUrl_resolution_priority none
    none (envWithUrl none) Trace.empty rfl
  have e1 := ha1 "http://img:1" rfl (by decide)
  exact ⟨⟨s1, h1, e1, by rw [hb1, e1]⟩,
    ⟨s2, h2, he2 (Or.inl rfl) "http://env:2" rfl (by decide)⟩,
    ⟨s3, h3, hd3 (Or.inl rfl) (Or.inl rfl)⟩⟩

/-- Claim C10: an empty string is treated as absent during base-URL resolution.
Constructing with the explicit argument `""` gives the same result as
constructing with no argument; an environment value of `""` gives the same
result as an unset variable; and for every string-or-absent argument (the
environment value being a string or absent too) construction succeeds with a
`baseUrl` that is not the empty string. -/
theorem empty_string_treated_as_absent (arg : Option String) (w : Env) (t : Trace) :
    GoImageService.constructor (.str "") w t = GoImageService.constructor .undefined w t ∧
    (∀ (w1 w2 : Env) (a : JsVal), w1.processEnv "GO_IMAGE_SERVICE_URL" = some "" →
      w2.processEnv "GO_IMAGE_SERVICE_URL" = none →
      GoImageService.constructor a w1 t = GoImageService.constructor a w2 t) ∧
    (∃ svc : GoImageService,
      GoImageService.constructor (ofOptString arg) w t = (.ok svc, t) ∧
      svc.baseUrl ≠ .str "") := by
  refine ⟨?_, ?_, ⟨_, constructor_run (ofOptString arg) w t, ?_⟩⟩
  · rw [constructor_run, constructor_run]
    simp [jsOr, JsVal.truthy]
  · intro w1 w2 a h1 h2
    have h1b : w1.processEnv urlVariable = some "" := h1
    have h2b : w2.processEnv urlVariable = none := h2
    rw [constructor_run, constructor_run, h1b, h2b]
    cases ha : a.truthy
    · rw [jsOr_falsy a _ ha, jsOr_falsy a _ ha]
      show (Except.ok (serviceAt (jsOr (.str "") (.str defaultUrl))), t) =
        (Except.ok (serviceAt (jsOr .undefined (.str defaultUrl))), t)
      rw [jsOr_falsy _ _ truthy_empty, jsOr_falsy _ _ truthy_undefined]
    · rw [jsOr_truthy a _ ha, jsOr_truthy a _ ha, jsOr_truthy a _ ha, jsOr_truthy a _ ha]
  · cases arg with
    | none =>
      cases he : w.processEnv urlVariable with
      | none => simp [serviceAt, jsOr, ofOptString, JsVal.truthy, he, defaultUrl]
      | some s =>
        by_cases hs : s = ""
        · simp [serviceAt, jsOr, ofOptString, JsVal.truthy, he, hs, defaultUrl]
        · simp [serviceAt, jsOr, ofOptString, JsVal.truthy, he, hs]
    | some a =>
      by_cases ha : a = ""
      · cases he : w.processEnv urlVariable with
        | none => simp [serviceAt, jsOr, ofOptString, JsVal.truthy, he, ha, defaultUrl]
        | some s =>
          by_cases hs : s = ""
          · simp [serviceAt, jsOr, ofOptString, JsVal.truthy, he, ha, hs, defaultUrl]
          · simp [serviceAt, jsOr, ofOptString, JsVal.truthy, he, ha, hs]
      · simp [serviceAt, jsOr, ofOptString, JsVal.truthy, ha]

/-- With the variable set to "http://env:2", the argument `""` and no argument
both resolve to it; with the variable set to `""` and with it unset, no argument
resolves to the default. -/
theorem empty_string_treated_as_absent_witness :
    GoImageService.constructor (.str "") (envWithUrl (some "http://env:2")) Trace.empty =
      GoImageService.constructor .undefined (envWithUrl (some "http://env:2")) Trace.empty ∧
    GoImageService.constructor .undefined (envWithUrl (some "")) Trace.empty =
      GoImageService.constructor .undefined (envWithUrl none) Trace.empty :=
  ⟨(empty_string_treated_as_absent none (envWithUrl (some "http://env:2")) Trace.empty).1,
   (empty_string_treated_as_absent none (envWithUrl none) Trace.empty).2.1
      (envWithUrl (some "")) (envWithUrl none) .undefined rfl rfl⟩

/-- Claim C8: the request trace.  Construction issues no request.  Every operation,
whether its call succeeds or fails, adds exactly one request to those issued
before: `GET /health` with no parameters and no body for `healthCheck`;
`POST /api/combat` with the payload as body and the binary response type for
`generateCombatImage`; `GET /api/scrape/pinterest` with `query` and `maxResults`
equal to the arguments (`maxResults` 10 when omitted) for `searchPinterest`;
`GET /api/scrape/vsbattles/search` with `query` the character name for
`searchVSBattles`; `GET /api/scrape/vsbattles/detail` with `url` the argument for
`getVSBattlesDetail`. -/
theorem request_trace (self : GoImageService)
    (serviceUrl data query maxResults characterName url : JsVal) (w : Env) (t : Trace) :
    (GoImageService.constructor serviceUrl w t).2.requests = t.requests ∧
    (∃ req : Request, (self.healthCheck w t).2.requests = t.requests ++ [req] ∧
      req.method = .GET ∧ req.url = "/health" ∧ req.params = [] ∧ req.data = none ∧
      req.baseURL = self.client.defaults.baseURL) ∧
    (∃ req : Request, (self.generateCombatImage data w t).2.requests = t.requests ++ [req] ∧
      req.method = .POST ∧ req.url = "/api/combat" ∧ req.params = [] ∧
      req.data = some data ∧ req.responseType = some "arraybuffer" ∧
      req.baseURL = self.client.defaults.baseURL) ∧
    (∃ req : Request,
      (self.searchPinterest query maxResults w t).2.requests = t.requests ++ [req] ∧
      req.method = .GET ∧ req.url = "/api/scrape/pinterest" ∧ req.data = none ∧
      (maxResults ≠ .undefined →
        req.params = [("query", query), ("maxResults", maxResults)]) ∧
      (maxResults = .undefined →
        req.params = [("query", query), ("maxResults", .num 10)]) ∧
      req.baseURL = self.client.defaults.baseURL) ∧
    (∃ req : Request,
      (self.searchVSBattles characterName w t).2.requests = t.requests ++ [req] ∧
      req.method = .GET ∧ req.url = "/api/scrape/vsbattles/search" ∧ req.data = none ∧
      req.params = [("query", characterName)] ∧
      req.baseURL = self.client.defaults.baseURL) ∧
    (∃ req : Request,
      (self.getVSBattlesDetail url w t).2.requests = t.requests ++ [req] ∧
      req.method = .GET ∧ req.url = "/api/scrape/vsbattles/detail" ∧ req.data = none ∧
      req.params = [("url", url)] ∧
      req.baseURL = self.client.defaults.baseURL) := by
  refine ⟨rfl, ⟨healthRequest self, ?_, rfl, rfl, rfl, rfl, rfl⟩,
    ⟨combatRequest self data, ?_, rfl, rfl, rfl, rfl, rfl, rfl⟩,
    ⟨pinterestRequest self query maxResults, ?_, rfl, rfl, rfl, ?_, ?_, rfl⟩,
    ⟨vsbSearchRequest self characterName, ?_, rfl, rfl, rfl, rfl, rfl⟩,
    ⟨vsbDetailRequest self url, ?_, rfl, rfl, rfl, rfl, rfl⟩⟩
  · cases h : w.transport (healthRequest self) with
    | error e => rw [healthCheck_of_error self w t e h]; rfl
    | ok r => rw [healthCheck_of_ok self w t r h]; rfl
  · cases h : w.transport (combatRequest self data) with
    | error e => rw [generateCombatImage_of_error self data w t e h]; rfl
    | ok r =>
      cases hq : w.bufferFrom r.data with
      | error e => rw [generateCombatImage_of_bad_body self data w t r e h hq]; rfl
      | ok q => rw [generateCombatImage_of_ok self data w t r q h hq]; rfl
  · cases h : w.transport (pinterestRequest self query maxResults) with
    | error e => rw [searchPinterest_of_error self query maxResults w t e h]; rfl
    | ok r => rw [searchPinterest_of_ok self query maxResults w t r h]; rfl
  · intro hm
    cases maxResults with
    | undefined => exact absurd rfl hm
    | _ => rfl
  · intro hm
    subst hm
    rfl
  · cases h : w.transport (vsbSearchRequest self characterName) with
    | error e => rw [searchVSBattles_of_error self characterName w t e h]; rfl
    | ok r => rw [searchVSBattles_of_ok self characterName w t r h]; rfl
  · cases h : w.transport (vsbDetailRequest self url) with
    | error e => rw [getVSBattlesDetail_of_error self url w t e h]; rfl
    | ok r => rw [getVSBattlesDetail_of_ok self url w t r h]; rfl

/-- The example of the specification: `searchPinterest("Goku", 5)` on a fresh trace
issues the single request `GET /api/scrape/pinterest` with `query` "Goku" and
`maxResults` 5, also when the call fails; with `maxResults` omitted the parameter
is 10. -/
theorem request_trace_witness :
    (sampleService.searchPinterest (.str "Goku") (.num 5) (downEnv refusedFault)
      Trace.empty).2.requests.map (fun req => (req.method, req.url, req.params.length)) =
      [(.GET, "/api/scrape/pinterest", 2)] ∧
    (∃ req : Request,
      (sampleService.searchPinterest (.str "Goku") (.num 5) (downEnv refusedFault)
        Trace.empty).2.requests = [req] ∧
      req.params = [("query", .str "Goku"), ("maxResults", .num 5)]) ∧
    (∃ req : Request,
      (sampleService.searchPinterest (.str "Goku") .undefined (upEnv .null)
        Trace.empty).2.requests = [req] ∧
      req.params = [("query", .str "Goku"), ("maxResults", .num 10)]) := by
  obtain ⟨_, _, _, ⟨req, hreq, _, _, _, hgiven, _, _⟩, _, _⟩ :=
    request_trace sampleService .undefined samplePayload (.str "Goku") (.num 5) .null .null
      (downEnv refusedFault) Trace.empty
  obtain ⟨_, _, _, ⟨req2, hreq2, _, _, _, _, homitted, _⟩, _, _⟩ :=
    request_trace sampleService .undefined samplePayload (.str "Goku") .undefined .null .null
      (upEnv .null) Trace.empty
  refine ⟨rfl, ⟨req, hreq, hgiven (by intro h; cases h)⟩, ⟨req2, hreq2, homitted rfl⟩⟩

/-- Claim C9: diagnostics follow the failure-policy table.  On a failure with fault
`e` each of `generateCombatImage` (a failed call, or a failed conversion of the
body), `searchPinterest`, `searchVSBattles` and `getVSBattlesDetail` adds exactly
one diagnostic to those emitted before, made of the operation's own label and
`e`'s message; `healthCheck` never adds a diagnostic; no operation adds one on
success. -/
theorem diagnostics_follow_policy (self : GoImageService)
    (data query maxResults characterName url : JsVal) (w : Env) (t : Trace) :
    (∀ e : Fault, w.transport (combatRequest self data) = .error e →
      (self.generateCombatImage data w t).2.diagnostics =
        t.diagnostics ++ [[.str "GoService Combat Error:", .str e.message]]) ∧
    (∀ (r : Response) (e : Fault), w.transport (combatRequest self data) = .ok r →
      w.bufferFrom r.data = .error e →
      (self.generateCombatImage data w t).2.diagnostics =
        t.diagnostics ++ [[.str "GoService Combat Error:", .str e.message]]) ∧
    (∀ e : Fault, w.transport (pinterestRequest self query maxResults) = .error e →
      (self.searchPinterest query maxResults w t).2.diagnostics =
        t.diagnostics ++ [[.str "GoService Pinterest Error:", .str e.message]]) ∧
    (∀ e : Fault, w.transport (vsbSearchRequest self characterName) = .error e →
      (self.searchVSBattles characterName w t).2.diagnostics =
        t.diagnostics ++ [[.str "GoService VSB Search Error:", .str e.message]]) ∧
    (∀ e : Fault, w.transport (vsbDetailRequest self url) = .error e →
      (self.getVSBattlesDetail url w t).2.diagnostics =
        t.diagnostics ++ [[.str "GoService VSB Detail Error:", .str e.message]]) ∧
    (self.healthCheck w t).2.diagnostics = t.diagnostics ∧
    (∀ (r : Response) (q : List Byte), w.transport (combatRequest self data) = .ok r →
      w.bufferFrom r.data = .ok q →
      (self.generateCombatImage data w t).2.diagnostics = t.diagnostics) ∧
    (∀ r : Response, w.transport (pinterestRequest self query maxResults) = .ok r →
      (self.searchPinterest query maxResults w t).2.diagnostics = t.diagnostics) ∧
    (∀ r : Response, w.transport (vsbSearchRequest self characterName) = .ok r →
      (self.searchVSBattles characterName w t).2.diagnostics = t.diagnostics) ∧
    (∀ r : Response, w.transport (vsbDetailRequest self url) = .ok r →
      (self.getVSBattlesDetail url w t).2.diagnostics = t.diagnostics) := by
  refine ⟨fun e h => ?_, fun r e h hq => ?_, fun e h => ?_, fun e h => ?_, fun e h => ?_,
    ?_, fun r q h hq => ?_, fun r h => ?_, fun r h => ?_, fun r h => ?_⟩
  · rw [generateCombatImage_of_error self data w t e h]; rfl
  · rw [generateCombatImage_of_bad_body self data w t r e h hq]; rfl
  · rw [searchPinterest_of_error self query maxResults w t e h]; rfl
  · rw [searchVSBattles_of_error self characterName w t e h]; rfl
  · rw [getVSBattlesDetail_of_error self url w t e h]; rfl
  · cases h : w.transport (healthRequest self) with
    | error e => rw [healthCheck_of_error self w t e h]; rfl
    | ok r => rw [healthCheck_of_ok self w t r h]; rfl
  · rw [generateCombatImage_of_ok self data w t r q h hq]; rfl
  · rw [searchPinterest_of_ok self query maxResults w t r h]; rfl
  · rw [searchVSBattles_of_ok self characterName w t r h]; rfl
  · rw [getVSBattlesDetail_of_ok self url w t r h]; rfl

/-- A 500 answer to the detail lookup logs the one line
`GoService VSB Detail Error: Request failed with status code 500`; a failed health
check logs nothing; a successful Pinterest search logs nothing. -/
theorem diagnostics_follow_policy_witness :
    (sampleService.getVSBattlesDetail (.str "https://vsbattles.fandom.com/wiki/Goku")
      (downEnv status500Fault) Trace.empty).2.diagnostics =
      [[.str "GoService VSB Detail Error:", .str "Request failed with status code 500"]] ∧
    (sampleService.healthCheck (downEnv status500Fault) Trace.empty).2.diagnostics = [] ∧
    (sampleService.searchPinterest (.str "cat") (.num 3) catMock Trace.empty).2.diagnostics =
      [] :=
  ⟨(diagnostics_follow_policy sampleService samplePayload (.str "cat") (.num 3) (.str "Goku")
      (.str "https://vsbattles.fandom.com/wiki/Goku") (downEnv status500Fault)
      Trace.empty).2.2.2.2.1 status500Fault rfl,
   (diagnostics_follow_policy sampleService samplePayload (.str "cat") (.num 3) (.str "Goku")
      (.str "https://vsbattles.fandom.com/wiki/Goku") (downEnv status500Fault)
      Trace.empty).2.2.2.2.2.1,
   (diagnostics_follow_policy sampleService samplePayload (.str "cat") (.num 3) (.str "Goku")
      (.str "https://vsbattles.fandom.com/wiki/Goku") catMock
      Trace.empty).2.2.2.2.2.2.2.1 ⟨twoImages, 200⟩ rfl⟩

end NodeClient
